import Mathlib

/-!
Shallow embedding of the SGP4X MicroPython driver (`sgp4Xmod.py`): the
command/response protocol engine of a digital gas sensor family (SGP40 /
SGP41).  Pure functions of the source are Lean functions; the session object
is an explicit state record; bus traffic is an explicit list of written
frames; every `raise` site of the source becomes an `Except.error`
constructor.  Machine bytes are `Nat` with explicit `% 256` where it matters;
the two decimal float literals of the source are embedded through an exact
emulation of IEEE-754 binary64 rounding on rationals.
-/

/-- Decidable equality of `Except` results, so that concrete runs of the
embedded driver can be evaluated by `decide`. -/
instance {ε α : Type} [DecidableEq ε] [DecidableEq α] :
    DecidableEq (Except ε α) := fun x y =>
  match x, y with
  | .ok a, .ok b =>
    match decEq a b with
    | isTrue h => isTrue (h ▸ rfl)
    | isFalse h => isFalse (fun e => h (Except.ok.inj e))
  | .error a, .error b =>
    match decEq a b with
    | isTrue h => isTrue (h ▸ rfl)
    | isFalse h => isFalse (fun e => h (Except.error.inj e))
  | .ok _, .error _ => isFalse (fun e => Except.noConfusion e)
  | .error _, .ok _ => isFalse (fun e => Except.noConfusion e)

namespace SGP4X

/-- Errors raised by the driver.  The source raises `ValueError` at distinct
sites; each site gets its own constructor so the error taxonomy of the design
(`InvalidArgument` / `InvalidCommand` / `InvalidLength` / `ChecksumMismatch`)
stays visible. -/
inductive SgpError where
  /-- `check_value` rejected a value outside its valid range. -/
  | invalidValue (msg : String)
  /-- membership test against a `None` range (Python `TypeError`); unreachable
  at the call sites of this driver. -/
  | typeError
  /-- `_get_answer_params`: unknown command code or no metadata for this
  sensor id. -/
  | invalidCommand
  /-- `_check_answer_length`: response length not in {0, 3, 6, 9}. -/
  | invalidLength (l : Nat)
  /-- `_check_answer`: computed CRC differs from the CRC byte of the buffer. -/
  | crcMismatch (calculated crcFromBuf : Nat)
  /-- adapter `unpack` failure (buffer does not match the format). -/
  | unpackError
  deriving DecidableEq

/-- Modelled from the spec: `crc8` of `sensor_pack_2.crc_mod` (not under
`src/`), the 8-bit CRC with polynomial 0x31, initial value 0xFF, no input or
output reflection and no output XOR (spec §4.1).  One shift step of the
bitwise algorithm. -/
def crc8_shift (crc : Nat) : Nat :=
  if crc &&& 0x80 ≠ 0 then ((crc <<< 1) ^^^ 0x31) &&& 0xFF
  else (crc <<< 1) &&& 0xFF

/-- Modelled from the spec: absorb one byte into the CRC register (XOR in the
byte, then eight shift steps). -/
def crc8_byte (crc b : Nat) : Nat :=
  crc8_shift^[8] ((crc ^^^ b) &&& 0xFF)

/-- Modelled from the spec: `crc8(sequence, polynomial=0x31, init_value=0xFF)`
over a byte sequence. -/
def crc8 (sequence : List Nat) : Nat :=
  sequence.foldl crc8_byte 0xFF

/-- `_calc_crc`: wrapper used by the driver for both framing directions. -/
def _calc_crc (sequence : List Nat) : Nat :=
  crc8 sequence

/-- Modelled from the spec: `check_value` of `sensor_pack_2.base_sensor` (not
under `src/`): returns the value unchanged when it is `None` or lies in the
valid range, and fails otherwise (spec §7 `InvalidArgument`; §8 requires
`raw_humidity(0) == 0`, so a `None` value passes without consulting the
range). -/
def check_value {α : Type} (value : Option α) (valid_range : Option (α → Bool))
    (err : SgpError) : Except SgpError (Option α) :=
  match value with
  | none => .ok none
  | some v =>
    match valid_range with
    | none => .error .typeError
    | some p => if p v then .ok (some v) else .error err

/-- Python truthiness of an optional integer: `None` and `0` are falsy. -/
def truthy (x : Option Int) : Bool :=
  match x with
  | none => false
  | some v => v != 0

/-- Membership in Python `range(101)`. -/
def rhRange (v : Int) : Bool :=
  decide (0 ≤ v ∧ v < 101)

/-- Membership in Python `range(-45, 131)`. -/
def tempRange (v : Int) : Bool :=
  decide (-45 ≤ v ∧ v < 131)

/-- Error message of `_check_rh_temp` (the source formats an f-string; the
text itself carries no logic). -/
def outOfRangeMsg : String := "value out of valid range"

/-- `SGP4X._check_rh_temp`: sequentially (last write wins) selects the value
and range to check from the truthy argument, then delegates to
`check_value`. -/
def _check_rh_temp (rh temp : Option Int) : Except SgpError Unit :=
  let vr : Option Int × Option (Int → Bool) :=
    if truthy rh then (rh, some rhRange) else (none, none)
  let vr := if truthy temp then (temp, some tempRange) else vr
  (check_value vr.1 vr.2 (.invalidValue outOfRangeMsg)).map (fun _ => ())

/-- Round-half-to-even of the nonnegative rational `num / den` — the
semantics of Python `round` applied to an exactly represented nonnegative
real value. -/
def roundHalfEvenNat (num den : Nat) : Nat :=
  let q := num / den
  let r := num % den
  if 2 * r < den then q
  else if den < 2 * r then q + 1
  else if q % 2 = 0 then q else q + 1

/-- Fuelled floor of the base-2 logarithm (structural recursion, so that the
kernel can evaluate it). -/
def log2fuel : Nat → Nat → Nat
  | 0, _ => 0
  | fuel + 1, n => if n ≤ 1 then 0 else 1 + log2fuel fuel (n / 2)

/-- `log2floor n` is `⌊log₂ n⌋` for `n ≥ 1`; `n` itself is ample fuel. -/
def log2floor (n : Nat) : Nat :=
  log2fuel n n

/-- A nonnegative IEEE-754 binary64 value, represented exactly as
`mantissa * 2 ^ exp`. -/
structure F64 where
  mantissa : Nat
  exp : Int
  deriving DecidableEq

/-- The exact value of an `F64` as a nonnegative fraction `(num, den)`. -/
def f64NumDen (x : F64) : Nat × Nat :=
  if 0 ≤ x.exp then (x.mantissa * 2 ^ x.exp.toNat, 1)
  else (x.mantissa, 2 ^ (-x.exp).toNat)

/-- Round the nonnegative rational `num / den` to the nearest IEEE-754
binary64 value (53-bit significand, round to nearest, ties to even).  Exact
for `0` and for values in `[1, 2^970)`, which covers every float literal and
every float product of this driver. -/
def fl53 (num den : Nat) : F64 :=
  if num = 0 ∨ den = 0 then ⟨0, 0⟩
  else
    let k := log2floor (num / den)
    if 52 ≤ k then ⟨roundHalfEvenNat num (den * 2 ^ (k - 52)), (k : Int) - 52⟩
    else ⟨roundHalfEvenNat (num * 2 ^ (52 - k)) den, (k : Int) - 52⟩

/-- One binary64 multiplication: exact product of the two represented
values, rounded back to binary64. -/
def fmul (x y : F64) : F64 :=
  let nd := f64NumDen ⟨x.mantissa * y.mantissa, x.exp + y.exp⟩
  fl53 nd.1 nd.2

/-- Exact conversion of a machine integer to binary64 (exact below `2^53`,
which covers this driver's inputs). -/
def floatOfNat (n : Nat) : F64 :=
  fl53 n 1

/-- Python `round` on a nonnegative binary64 value: half-to-even rounding of
its exact value. -/
def pyRound (x : F64) : Nat :=
  let nd := f64NumDen x
  roundHalfEvenNat nd.1 nd.2

/-- The binary64 value of the source literal `65.35`. -/
def float_65_35 : F64 :=
  fl53 1307 20

/-- The binary64 value of the source literal `374.4857142857`. -/
def float_374_4857142857 : F64 :=
  fl53 3744857142857 10000000000

/-- `SGP4X._get_raw_relhum`: range-check the relative humidity (in %), then
`round(65.35 * rel_hum)` in binary64 arithmetic.  On every path that reaches
the multiplication the argument is nonnegative, so the `toNat` conversion is
exact. -/
def _get_raw_relhum (rel_hum : Int) : Except SgpError Int := do
  let _ ← _check_rh_temp (some rel_hum) none
  pure ((pyRound (fmul float_65_35 (floatOfNat rel_hum.toNat)) : Nat) : Int)

/-- `SGP4X._get_raw_temp`: range-check the temperature (in °C), then
`round(374.4857142857 * (45 + temperature))` in binary64 arithmetic (the sum
`45 + temperature` is computed exactly in Python and is nonnegative on every
path that reaches the multiplication). -/
def _get_raw_temp (temperature : Int) : Except SgpError Int := do
  let _ ← _check_rh_temp none (some temperature)
  pure ((pyRound (fmul float_374_4857142857
    (floatOfNat (45 + temperature).toNat)) : Nat) : Int)

/-- `SGP4X._cmd_execute_conditioning` (SGP41 only). -/
def _cmd_execute_conditioning : Nat := 0x2612

/-- `SGP4X._cmd_measure_raw_signal`. -/
def _cmd_measure_raw_signal : Nat := 0x260F

/-- `SGP4X._cmd_execute_self_test`. -/
def _cmd_execute_self_test : Nat := 0x280E

/-- `SGP4X._cmd_turn_heater_off`. -/
def _cmd_turn_heater_off : Nat := 0x3615

/-- `SGP4X._cmd_get_serial_number`. -/
def _cmd_get_serial_number : Nat := 0x3682

/-- `answer_params_sgp4x` namedtuple: expected response length (bytes) and
wait time (ms). -/
structure answer_params_sgp4x where
  length : Nat
  wait_time : Nat
  deriving DecidableEq

/-- `SGP4X._get_answer_params`: sequential, last-write-wins assignment of
`(_wt, _l)` exactly as in the source, then failure when either is still
`None`. -/
def _get_answer_params (cmd_code : Nat) (sensor_id : Nat) :
    Except SgpError answer_params_sgp4x :=
  let wl : Option Nat × Option Nat := (none, none)
  let wl := if _cmd_turn_heater_off = cmd_code then (some 1, some 0) else wl
  let wl := if _cmd_execute_self_test = cmd_code then (some 320, some 3) else wl
  let wl := if 1 = sensor_id ∧ _cmd_execute_conditioning = cmd_code then
      (some 50, some 3) else wl
  let wl := if _cmd_measure_raw_signal = cmd_code then
      (if 0 = sensor_id then (some 30, some 3) else (some 50, some 6)) else wl
  let wl := if _cmd_get_serial_number = cmd_code then (some 1, some 9) else wl
  match wl with
  | (some wt, some l) => .ok ⟨l, wt⟩
  | _ => .error .invalidCommand

/-- High byte of a 16-bit value (`to_bytes(2, big-endian)`, first byte). -/
def hiByte (v : Nat) : Nat := v / 256 % 256

/-- Low byte of a 16-bit value (`to_bytes(2, big-endian)`, second byte). -/
def loByte (v : Nat) : Nat := v % 256

/-- `value.to_bytes(2, byteorder)` with the session's big byte order. -/
def to_bytes_2_big (v : Nat) : List Nat := [hiByte v, loByte v]

/-- The byte frame assembled by `SGP4X._send_command`: when
`all((raw_rel_hum, raw_temp))` is truthy (both present and nonzero), the
8-byte buffer `[code, rh, crc(rh), temp, crc(temp)]`; otherwise the bare
2-byte command code. -/
def _send_command_frame (cmd_code : Nat) :
    Option Nat → Option Nat → List Nat
  | some raw_rel_hum, some raw_temp =>
    if raw_rel_hum != 0 && raw_temp != 0 then
      to_bytes_2_big cmd_code ++
      to_bytes_2_big raw_rel_hum ++ [_calc_crc (to_bytes_2_big raw_rel_hum)] ++
      to_bytes_2_big raw_temp ++ [_calc_crc (to_bytes_2_big raw_temp)]
    else to_bytes_2_big cmd_code
  | _, _ => to_bytes_2_big cmd_code

/-- Session state of an `SGP4X` object: sensor variant id, CRC-checking flag
and the last command code written to the bus.  The reusable byte buffers of
the source are scratch space and carry no observable state. -/
structure SGP4XState where
  sensor_id : Nat
  check_crc : Bool
  last_cmd_code : Option Nat
  deriving DecidableEq

/-- `SGP4X._send_command`: writes the frame to the transport (returned as the
list of performed writes) and records the command code as last issued. -/
def _send_command (st : SGP4XState) (cmd_code : Nat)
    (raw_rel_hum raw_temp : Option Nat) : SGP4XState × List (List Nat) :=
  ({st with last_cmd_code := some cmd_code},
   [_send_command_frame cmd_code raw_rel_hum raw_temp])

/-- `SGP4X._check_answer_length`: `check_value(answ_length, (0, 3, 6, 9))`. -/
def _check_answer_length (answ_length : Nat) : Except SgpError Unit :=
  (check_value (some answ_length)
      (some fun v => decide (v = 0 ∨ v = 3 ∨ v = 6 ∨ v = 9))
      (.invalidLength answ_length)).map (fun _ => ())

/-- The two data bytes of response group `i`: indices `[3i, 3i+2)`, the data
ranges yielded by `SGP4X._get_data_place`. -/
def dataSlice (answer : List Nat) (i : Nat) : List Nat :=
  (answer.drop (3 * i)).take 2

/-- The CRC byte of response group `i`: index `3i + 2` (the `data_place.stop`
byte read by `SGP4X._check_answer`). -/
def crcAt (answer : List Nat) (i : Nat) : Nat :=
  answer.getD (3 * i + 2) 0

/-- The loop body of `SGP4X._check_answer` over the group indices: recompute
the CRC of each data pair and fail on the first group whose stored CRC byte
differs. -/
def _check_answer_groups (answer : List Nat) : List Nat → Except SgpError Bool
  | [] => .ok true
  | i :: rest =>
    let calculated_crc := _calc_crc (dataSlice answer i)
    let crc_from_buf := crcAt answer i
    if calculated_crc != crc_from_buf then
      .error (.crcMismatch calculated_crc crc_from_buf)
    else _check_answer_groups answer rest

/-- `SGP4X._check_answer`: validate the response length, then every
`(data, crc)` group. -/
def _check_answer (answer : List Nat) (answ_length : Nat) :
    Except SgpError Bool := do
  let _ ← _check_answer_length answ_length
  _check_answer_groups answer (List.range (answ_length / 3))

/-- `SGP4X._read_answer`: resolve the metadata of the last issued command,
read that many bytes from the transport (the `response` argument stands for
the bytes the device puts on the bus) and CRC-check them when enabled. -/
def _read_answer (st : SGP4XState) (response : List Nat) :
    Except SgpError (Option (List Nat)) :=
  match st.last_cmd_code with
  | none => .error .invalidCommand
  | some cmd => do
    let ap ← _get_answer_params cmd st.sensor_id
    if ap.length = 0 then pure none
    else do
      let buf := response.take ap.length
      if st.check_crc then
        let _ ← _check_answer buf ap.length
        pure (some buf)
      else pure (some buf)

/-- One field of an adapter unpack format string: `H` (big-endian 16-bit
word) or `B` (byte). -/
inductive FmtChar where
  | H
  | B
  deriving DecidableEq

/-- Modelled from the spec: `DeviceEx.unpack` of `sensor_pack_2.base_sensor`
(not under `src/`), a big-endian `struct.unpack` over the response buffer;
fails when the buffer length does not match the format. -/
def unpack : List FmtChar → List Nat → Option (List Nat)
  | [], [] => some []
  | .H :: fmt, b0 :: b1 :: rest => (unpack fmt rest).map (fun t => (256 * b0 + b1) :: t)
  | .B :: fmt, b0 :: rest => (unpack fmt rest).map (fun t => b0 :: t)
  | _, _ => none

/-- `SGP4X._send_command_and_read_answer`: optionally range-check and convert
the compensation values and send the command (with its 8-byte frame), or send
the bare command; then resolve the metadata, wait, read the answer and unpack
it.  Returns the writes performed on the bus, the final session state and the
result. -/
def _send_command_and_read_answer (st : SGP4XState) (cmd_code : Nat)
    (fmt : List FmtChar) (with_params : Bool) (rel_hum temperature : Int)
    (response : List Nat) :
    List (List Nat) × SGP4XState × Except SgpError (List Nat) :=
  let sent : Except SgpError (SGP4XState × List (List Nat)) :=
    if with_params then
      match _check_rh_temp (some rel_hum) (some temperature) with
      | .error e => .error e
      | .ok _ =>
        match _get_raw_temp temperature with
        | .error e => .error e
        | .ok raw_temp =>
          match _get_raw_relhum rel_hum with
          | .error e => .error e
          | .ok raw_rh =>
            .ok (_send_command st cmd_code (some raw_rh.toNat) (some raw_temp.toNat))
    else .ok (_send_command st cmd_code none none)
  match sent with
  | .error e => ([], st, .error e)
  | .ok (st1, writes) =>
    match _get_answer_params cmd_code st1.sensor_id with
    | .error e => (writes, st1, .error e)
    | .ok _ =>
      match _read_answer st1 response with
      | .error e => (writes, st1, .error e)
      | .ok none => (writes, st1, .error .unpackError)
      | .ok (some buf) =>
        match unpack fmt buf with
        | none => (writes, st1, .error .unpackError)
        | some t => (writes, st1, .ok t)

/-- `measured_values_sgp4x` namedtuple: VOC raw signal and, when present,
NOx raw signal. -/
structure measured_values_sgp4x where
  VOC : Nat
  NOx : Option Nat
  deriving DecidableEq

/-- `SGP4X.measure_raw_signal`: unpack format `"HBHB"` for SGP41 (truthy
sensor id) and `"HB"` for SGP40; NOx is `_t[2]` for SGP41 and `None` for
SGP40. -/
def measure_raw_signal (st : SGP4XState) (rel_hum temperature : Int)
    (response : List Nat) :
    List (List Nat) × SGP4XState × Except SgpError measured_values_sgp4x :=
  let fmt := if st.sensor_id != 0 then [FmtChar.H, .B, .H, .B] else [FmtChar.H, .B]
  let r := _send_command_and_read_answer st _cmd_measure_raw_signal fmt true
    rel_hum temperature response
  (r.1, r.2.1, r.2.2.map (fun t =>
    ⟨t.getD 0 0, if st.sensor_id != 0 then some (t.getD 2 0) else none⟩))

/-- `SGP4X.execute_conditioning`: sends the conditioning command with
compensation parameters (defaults `rel_hum = 50`, `temperature = 25` in the
source) and unpacks with format `"HB"`; NOx is always `None`. -/
def execute_conditioning (st : SGP4XState) (rel_hum temperature : Int)
    (response : List Nat) :
    List (List Nat) × SGP4XState × Except SgpError measured_values_sgp4x :=
  let r := _send_command_and_read_answer st _cmd_execute_conditioning
    [FmtChar.H, .B] true rel_hum temperature response
  (r.1, r.2.1, r.2.2.map (fun t => ⟨t.getD 0 0, none⟩))

/-- Error message of the constructor's address check. -/
def badAddressMsg : String := "invalid device address"

/-- Error message of the constructor's sensor id check. -/
def badSensorIdMsg : String := "invalid sensor id"

/-- `SGP4X.__init__`: `check_value(address, range(0x59, 0x5A))`, then
`check_value(sensor_id, range(2))`, then store the configuration.  The
constructor performs no bus write or read; the empty list of writes is
returned alongside the fresh state. -/
def SGP4X_init (address : Int) (sensor_id : Int) (check_crc : Bool) :
    Except SgpError (SGP4XState × List (List Nat)) := do
  let _ ← check_value (some address)
      (some fun v => decide (0x59 ≤ v ∧ v < 0x5A)) (.invalidValue badAddressMsg)
  let _ ← check_value (some sensor_id)
      (some fun v => decide (0 ≤ v ∧ v < 2)) (.invalidValue badSensorIdMsg)
  pure (⟨sensor_id.toNat, check_crc, none⟩, [])

/-- Index of the first response group (among the first `n`) whose recomputed
CRC differs from the stored CRC byte. -/
def firstCrcMismatch (answer : List Nat) (n : Nat) : Option Nat :=
  (List.range n).find? (fun i => _calc_crc (dataSlice answer i) != crcAt answer i)

/-- A response buffer of uncorrupted groups: each 16-bit data pair followed
by its own checksum — the 3-byte group layout that the command encoder
produces for its parameter pairs. -/
def encodeGroups (pairs : List (Nat × Nat)) : List Nat :=
  pairs.flatMap (fun p => [p.1, p.2, _calc_crc [p.1, p.2]])

/-- C1: for every command code `c` and variant `v ∈ {0, 1}`,
`_get_answer_params` returns exactly the pair of the spec table —
turn-heater-off ↦ (0, 1), self-test ↦ (3, 320), conditioning ↦ (3, 50) on
variant 1, measure-raw-signal ↦ (3, 30) on variant 0 and (6, 50) on
variant 1, serial number ↦ (9, 1) — and raises exactly when `c` is not one
of the five command codes or `c` is the conditioning command with `v = 0`. -/
theorem getAnswerParams_c1 (c v : Nat) (hv : v = 0 ∨ v = 1) :
    _get_answer_params _cmd_turn_heater_off v = .ok ⟨0, 1⟩ ∧
    _get_answer_params _cmd_execute_self_test v = .ok ⟨3, 320⟩ ∧
    _get_answer_params _cmd_execute_conditioning 1 = .ok ⟨3, 50⟩ ∧
    _get_answer_params _cmd_measure_raw_signal 0 = .ok ⟨3, 30⟩ ∧
    _get_answer_params _cmd_measure_raw_signal 1 = .ok ⟨6, 50⟩ ∧
    _get_answer_params _cmd_get_serial_number v = .ok ⟨9, 1⟩ ∧
    (_get_answer_params c v = .error .invalidCommand ↔
      (¬(c = _cmd_turn_heater_off ∨ c = _cmd_execute_self_test ∨
          c = _cmd_execute_conditioning ∨ c = _cmd_measure_raw_signal ∨
          c = _cmd_get_serial_number) ∨
        (c = _cmd_execute_conditioning ∧ v = 0))) := by
  rcases hv with rfl | rfl <;>
    refine ⟨by decide, by decide, by decide, by decide, by decide, by decide, ?_⟩ <;>
  · unfold _get_answer_params
    split_ifs <;>
      simp_all [_cmd_turn_heater_off, _cmd_execute_self_test,
        _cmd_execute_conditioning, _cmd_measure_raw_signal,
        _cmd_get_serial_number] <;>
      omega

/-- C1 witness: the theorem applied at the conditioning command with
variant 0. -/
theorem getAnswerParams_c1_witness :
    _get_answer_params _cmd_turn_heater_off 0 = .ok ⟨0, 1⟩ :=
  (getAnswerParams_c1 _cmd_execute_conditioning 0 (Or.inl rfl)).1

/-- C2 counterexample: both raw values supplied, but the humidity value is
`0` (a valid 16-bit raw encoding), and the frame written is the bare 2-byte
code, not the 8-byte parameterised frame the claim promises for every call
with both values supplied. -/
theorem sendCommand_c2_counterexample :
    (_send_command ⟨0, true, none⟩ _cmd_measure_raw_signal
        (some 0) (some 26214)).2 ≠
      [[hiByte _cmd_measure_raw_signal, loByte _cmd_measure_raw_signal,
        hiByte 0, loByte 0, _calc_crc [hiByte 0, loByte 0],
        hiByte 26214, loByte 26214, _calc_crc [hiByte 26214, loByte 26214]]] := by
  decide

/-- C2 (amended: the 8-byte frame is produced when both raw values are
supplied and nonzero; a supplied zero behaves like an absent value): the
frame written to the transport is
`[code_hi, code_lo, rh_hi, rh_lo, crc(rh), t_hi, t_lo, crc(t)]` with the
command code big-endian when both values are nonzero, and the bare 2-byte
big-endian code when neither is supplied or only one is supplied. -/
theorem sendCommand_c2 (st : SGP4XState) (c r t : Nat)
    (hr : r ≠ 0) (ht : t ≠ 0) :
    (_send_command st c (some r) (some t)).2 =
      [[hiByte c, loByte c, hiByte r, loByte r, _calc_crc [hiByte r, loByte r],
        hiByte t, loByte t, _calc_crc [hiByte t, loByte t]]] ∧
    (_send_command st c none none).2 = [[hiByte c, loByte c]] ∧
    (_send_command st c (some r) none).2 = [[hiByte c, loByte c]] ∧
    (_send_command st c none (some t)).2 = [[hiByte c, loByte c]] := by
  refine ⟨?_, rfl, rfl, rfl⟩
  simp [_send_command, _send_command_frame, to_bytes_2_big, hr, ht]

/-- C2 witness: the conditioning command with the raw values the driver's
default compensation arguments produce. -/
theorem sendCommand_c2_witness :
    (_send_command ⟨0, true, none⟩ _cmd_execute_conditioning
        (some 3267) (some 26214)).2 =
      [[hiByte _cmd_execute_conditioning, loByte _cmd_execute_conditioning,
        hiByte 3267, loByte 3267, _calc_crc [hiByte 3267, loByte 3267],
        hiByte 26214, loByte 26214, _calc_crc [hiByte 26214, loByte 26214]]] :=
  (sendCommand_c2 ⟨0, true, none⟩ _cmd_execute_conditioning 3267 26214
    (by decide) (by decide)).1

/-- C10: a supplied raw compensation value equal to `0` makes the truthiness
test `all((raw_rel_hum, raw_temp))` false, so the encoder writes the same
bare 2-byte frame as a call with no parameters: a zero compensation value
silently disables compensation instead of being transmitted. -/
theorem sendCommand_c10 (st : SGP4XState) (c r t : Nat) :
    (_send_command st c (some 0) (some t)).2 = (_send_command st c none none).2 ∧
    (_send_command st c (some r) (some 0)).2 = (_send_command st c none none).2 := by
  constructor
  · rfl
  · simp [_send_command, _send_command_frame]

/-- C4 counterexample: the code multiplies by the literal `65.35`, not by
`65535/1000 = 65.535`: at `rh = 100` it returns `6535`, while the claim's
formula rounds to `6554` and its quoted literal is `6553`. -/
theorem rawRelhum_c4_counterexample :
    _get_raw_relhum 100 = Except.ok 6535 ∧
    roundHalfEvenNat (100 * 65535) 1000 = 6554 ∧
    (6535 : Int) ≠ 6554 ∧ (6535 : Int) ≠ 6553 := by
  decide

/-- C4 (amended: the conversion factor is the float literal `65.35`, not
`65535/1000`, so `rh = 100` yields `6535`): `_get_raw_relhum` fails with the
out-of-range error unless `0 ≤ rh ≤ 100`, returns the half-to-even rounding
of the binary64 product `65.35 * rh` for every in-range `rh`, and in
particular returns `0` for `rh = 0`, `6535` for `rh = 100`, and fails for
`rh = 101`. -/
theorem rawRelhum_c4 (rh : Int) :
    (0 ≤ rh ∧ rh ≤ 100 →
      _get_raw_relhum rh =
        .ok ((pyRound (fmul float_65_35 (floatOfNat rh.toNat)) : Nat) : Int)) ∧
    (¬(0 ≤ rh ∧ rh ≤ 100) →
      _get_raw_relhum rh = .error (.invalidValue outOfRangeMsg)) ∧
    _get_raw_relhum 0 = .ok 0 ∧
    _get_raw_relhum 100 = .ok 6535 ∧
    _get_raw_relhum 101 = .error (.invalidValue outOfRangeMsg) := by
  refine ⟨?_, ?_, by decide, by decide, by decide⟩
  · intro h
    by_cases h0 : rh = 0
    · subst h0; decide
    · have hr : rhRange rh = true := by
        simp only [rhRange, decide_eq_true_eq]
        omega
      simp [_get_raw_relhum, _check_rh_temp, check_value, truthy, h0, hr,
        Except.map]
  · intro h
    have h0 : ¬rh = 0 := by omega
    have hr : rhRange rh = false := by
      simp only [rhRange, decide_eq_false_iff_not]
      omega
    simp [_get_raw_relhum, _check_rh_temp, check_value, truthy, h0, hr,
      Except.map]

/-- C4 witness: the theorem applied at `rh = 100`. -/
theorem rawRelhum_c4_witness :
    _get_raw_relhum 100 =
      Except.ok ((pyRound (fmul float_65_35 (floatOfNat (100 : Int).toNat)) : Nat) : Int) :=
  (rawRelhum_c4 100).1 (by decide)

/-- C5 counterexample: `round((25 + 45) * 374.4857142857)` is `26214`, not
the claim's literal `26240`, both in the code's binary64 arithmetic and with
the exact rational factor. -/
theorem rawTemp_c5_counterexample :
    _get_raw_temp 25 = Except.ok 26214 ∧
    roundHalfEvenNat ((25 + 45) * 3744857142857) 10000000000 = 26214 ∧
    (26214 : Int) ≠ 26240 := by
  decide

/-- C5 (amended: `round((25 + 45) * 374.4857142857)` is `26214`, not
`26240`): `_get_raw_temp` fails with the out-of-range error unless
`-45 ≤ t ≤ 130`, returns the half-to-even rounding of the binary64 product
`374.4857142857 * (45 + t)` for every in-range `t`, and in particular
returns `26214` for `t = 25` and fails for `t = -46`. -/
theorem rawTemp_c5 (t : Int) :
    (-45 ≤ t ∧ t ≤ 130 →
      _get_raw_temp t =
        .ok ((pyRound (fmul float_374_4857142857
          (floatOfNat (45 + t).toNat)) : Nat) : Int)) ∧
    (¬(-45 ≤ t ∧ t ≤ 130) →
      _get_raw_temp t = .error (.invalidValue outOfRangeMsg)) ∧
    _get_raw_temp 25 = .ok 26214 ∧
    _get_raw_temp (-46) = .error (.invalidValue outOfRangeMsg) := by
  refine ⟨?_, ?_, by decide, by decide⟩
  · intro h
    by_cases h0 : t = 0
    · subst h0; decide
    · have hr : tempRange t = true := by
        simp only [tempRange, decide_eq_true_eq]
        omega
      simp [_get_raw_temp, _check_rh_temp, check_value, truthy, h0, hr,
        Except.map]
  · intro h
    have h0 : ¬t = 0 := by omega
    have hr : tempRange t = false := by
      simp only [tempRange, decide_eq_false_iff_not]
      omega
    simp [_get_raw_temp, _check_rh_temp, check_value, truthy, h0, hr,
      Except.map]

/-- C5 witness: the theorem applied at `t = 25`. -/
theorem rawTemp_c5_witness :
    _get_raw_temp 25 =
      Except.ok ((pyRound (fmul float_374_4857142857
        (floatOfNat (45 + (25 : Int)).toNat)) : Nat) : Int) :=
  (rawTemp_c5 25).1 (by decide)

/-- Binding a successful `Except` computation just applies the
continuation. -/
theorem except_bind_ok {ε α β : Type} (a : α) (f : α → Except ε β) :
    (Except.ok a >>= f : Except ε β) = f a :=
  rfl

/-- Binding a failed `Except` computation propagates the error. -/
theorem except_bind_error {ε α β : Type} (e : ε) (f : α → Except ε β) :
    (Except.error e >>= f : Except ε β) = Except.error e :=
  rfl

/-- The group-checking loop of `_check_answer` fails exactly on the first
index of its list whose recomputed CRC differs from the stored byte. -/
theorem checkAnswerGroups_eq_find (answer : List Nat) (l : List Nat) :
    _check_answer_groups answer l =
      match l.find? (fun i => _calc_crc (dataSlice answer i) != crcAt answer i) with
      | none => .ok true
      | some i => .error (.crcMismatch (_calc_crc (dataSlice answer i))
          (crcAt answer i)) := by
  induction l with
  | nil => rfl
  | cons i rest ih =>
    by_cases h : (_calc_crc (dataSlice answer i) != crcAt answer i) = true
    · simp only [_check_answer_groups, List.find?, h, if_true]
    · have h0 : (_calc_crc (dataSlice answer i) != crcAt answer i) = false := by
        simpa using h
      simp only [_check_answer_groups, List.find?, h0, if_false, ih,
        Bool.false_eq_true]

/-- C3: with CRC checking enabled, `_check_answer` partitions the buffer
into `length / 3` groups of two data bytes at `(3i, 3i+2)` and a checksum
byte at `3i+2`, recomputes each pair's checksum, fails with the
checksum-mismatch error of the first differing group (returning no data),
succeeds otherwise, and fails with the invalid-length error whenever the
expected length is not one of {0, 3, 6, 9}. -/
theorem checkAnswer_c3 (buf : List Nat) (len : Nat) (hlen : buf.length = len) :
    ((len = 0 ∨ len = 3 ∨ len = 6 ∨ len = 9) →
      _check_answer buf len =
        match firstCrcMismatch buf (len / 3) with
        | none => .ok true
        | some i => .error (.crcMismatch (_calc_crc (dataSlice buf i))
            (crcAt buf i))) ∧
    (¬(len = 0 ∨ len = 3 ∨ len = 6 ∨ len = 9) →
      _check_answer buf len = .error (.invalidLength len)) := by
  constructor
  · intro hv
    have hl : _check_answer_length len = .ok () := by
      rcases hv with rfl | rfl | rfl | rfl <;> rfl
    simp only [_check_answer, hl, except_bind_ok, firstCrcMismatch]
    exact checkAnswerGroups_eq_find buf _
  · intro hv
    have hl : _check_answer_length len = .error (.invalidLength len) := by
      simp [_check_answer_length, check_value, hv, Except.map]
    simp only [_check_answer, hl, except_bind_error]

/-- C3 witness: a valid 3-byte response passes, and corrupting its checksum
byte yields the mismatch error carrying the recomputed and stored CRCs. -/
theorem checkAnswer_c3_witness :
    _check_answer [0xBE, 0xEF, 0x92] 3 = Except.ok true ∧
    _check_answer [0xBE, 0xEF, 0x93] 3 =
      Except.error (.crcMismatch 0x92 0x93) := by
  constructor
  · exact ((checkAnswer_c3 [0xBE, 0xEF, 0x92] 3 (by decide)).1
      (by decide)).trans (by decide)
  · exact ((checkAnswer_c3 [0xBE, 0xEF, 0x93] 3 (by decide)).1
      (by decide)).trans (by decide)

/-- Every group of an uncorrupted encoded buffer passes the CRC
recomputation. -/
theorem encodeGroups_group_ok (pairs : List (Nat × Nat)) :
    ∀ i, i < pairs.length →
      _calc_crc (dataSlice (encodeGroups pairs) i) =
        crcAt (encodeGroups pairs) i := by
  induction pairs with
  | nil => intro i hi; simp at hi
  | cons p rest ih =>
    intro i hi
    have h3 : encodeGroups (p :: rest) =
        p.1 :: p.2 :: _calc_crc [p.1, p.2] :: encodeGroups rest := by
      simp [encodeGroups]
    cases i with
    | zero => simp [h3, dataSlice, crcAt]
    | succ j =>
      have hj : j < rest.length := by simpa using hi
      have hd : dataSlice (encodeGroups (p :: rest)) (j + 1) =
          dataSlice (encodeGroups rest) j := by
        have harith : 3 * (j + 1) = 3 * j + 1 + 1 + 1 := by ring
        simp [dataSlice, h3, harith, List.drop_succ_cons]
      have hc : crcAt (encodeGroups (p :: rest)) (j + 1) =
          crcAt (encodeGroups rest) j := by
        have harith : 3 * (j + 1) + 2 = 3 * j + 2 + 1 + 1 + 1 := by ring
        simp [crcAt, h3, harith, List.getD_cons_succ]
      rw [hd, hc]
      exact ih j hj

/-- C6: round-trip self-consistency — a buffer made of uncorrupted 3-byte
groups `[d_hi, d_lo, crc(d_hi, d_lo)]` passes `_check_answer`, and the
parameter section of an encoded command frame consists of exactly such
groups (same checksum routine in both directions). -/
theorem roundtrip_c6 (pairs : List (Nat × Nat)) (hlen : pairs.length ≤ 3)
    (c r t : Nat) (hr : r ≠ 0) (ht : t ≠ 0) :
    _check_answer (encodeGroups pairs) (3 * pairs.length) = .ok true ∧
    (_send_command_frame c (some r) (some t)).drop 2 =
      encodeGroups [(hiByte r, loByte r), (hiByte t, loByte t)] := by
  constructor
  · have hl : _check_answer_length (3 * pairs.length) = .ok () := by
      have h4 : pairs.length = 0 ∨ pairs.length = 1 ∨ pairs.length = 2 ∨
          pairs.length = 3 := by omega
      rcases h4 with h | h | h | h <;> rw [h] <;> rfl
    have hdiv : 3 * pairs.length / 3 = pairs.length := by omega
    simp only [_check_answer, hl, except_bind_ok, hdiv]
    rw [checkAnswerGroups_eq_find]
    have hfind : (List.range pairs.length).find?
        (fun i => _calc_crc (dataSlice (encodeGroups pairs) i) !=
          crcAt (encodeGroups pairs) i) = none := by
      apply List.find?_eq_none.mpr
      intro i hi
      have := encodeGroups_group_ok pairs i (by simpa using hi)
      simp [this]
    rw [hfind]
  · simp [_send_command_frame, hr, ht, encodeGroups, to_bytes_2_big]

/-- C6 witness: the theorem applied to a single concrete group and concrete
nonzero raw values. -/
theorem roundtrip_c6_witness :
    _check_answer (encodeGroups [(0xBE, 0xEF)]) 3 = Except.ok true := by
  have h := (roundtrip_c6 [(0xBE, 0xEF)] (by decide) 1 3267 26214
    (by decide) (by decide)).1
  simpa using h

/-- C8: the constructor succeeds — performing no transport write or read —
exactly when the device address is 0x59 and the variant identifier is 0 or
1; a bad address fails with the address error and a good address with a bad
variant fails with the sensor-id error, in both cases before any bus
traffic. -/
theorem init_c8 (address sensor_id : Int) (check_crc : Bool) :
    (address = 0x59 ∧ (sensor_id = 0 ∨ sensor_id = 1) →
      SGP4X_init address sensor_id check_crc =
        .ok (⟨sensor_id.toNat, check_crc, none⟩, [])) ∧
    (address ≠ 0x59 →
      SGP4X_init address sensor_id check_crc =
        .error (.invalidValue badAddressMsg)) ∧
    (address = 0x59 → ¬(sensor_id = 0 ∨ sensor_id = 1) →
      SGP4X_init address sensor_id check_crc =
        .error (.invalidValue badSensorIdMsg)) := by
  refine ⟨?_, ?_, ?_⟩
  · rintro ⟨rfl, rfl | rfl⟩ <;> rfl
  · intro ha
    have hp : decide (0x59 ≤ address ∧ address < 0x5A) = false := by
      simp only [decide_eq_false_iff_not]
      omega
    simp [SGP4X_init, check_value, hp, except_bind_error]
  · rintro rfl hs
    have hp : decide (0 ≤ sensor_id ∧ sensor_id < 2) = false := by
      simp only [decide_eq_false_iff_not]
      omega
    simp [SGP4X_init, check_value, hp, except_bind_error, except_bind_ok]

/-- C8 witness: the theorem applied at the valid configuration
`(0x59, variant 1, CRC on)`. -/
theorem init_c8_witness :
    SGP4X_init 0x59 1 true = .ok (⟨(1 : Int).toNat, true, none⟩, []) :=
  (init_c8 0x59 1 true).1 ⟨rfl, Or.inr rfl⟩

/-- C9: on a variant-0 session, `execute_conditioning` (with its default
compensation arguments) does fail with the unsupported-command error, but
only after the full 8-byte conditioning frame has been written to the
transport and the last-command state updated: the metadata lookup that fails
runs after `_send_command`, for every possible device response. -/
theorem executeConditioning_c9 (response : List Nat) :
    execute_conditioning ⟨0, true, none⟩ 50 25 response =
      ([[0x26, 0x12, 12, 195, 33, 102, 102, 147]],
        ⟨0, true, some _cmd_execute_conditioning⟩,
        Except.error .invalidCommand) := by
  rfl

/-- C7: whenever `measure_raw_signal` successfully decodes a response on a
session whose variant is 0 or 1, the returned pair has the first decoded
16-bit data word (bytes 0-1, big-endian) as its VOC field, and its NOx field
is `none` on variant 0 (2-field unpack) and the second decoded 16-bit data
word (bytes 3-4) on variant 1 (4-field unpack). -/
theorem measureRawSignal_c7 (st : SGP4XState) (rh t : Int)
    (response : List Nat) (mv : measured_values_sgp4x)
    (writes : List (List Nat)) (st1 : SGP4XState)
    (hv : st.sensor_id = 0 ∨ st.sensor_id = 1)
    (hlen : response.length = if st.sensor_id = 0 then 3 else 6)
    (hok : measure_raw_signal st rh t response = (writes, st1, .ok mv)) :
    mv.VOC = 256 * response.getD 0 0 + response.getD 1 0 ∧
    mv.NOx = (if st.sensor_id = 0 then none
      else some (256 * response.getD 3 0 + response.getD 4 0)) := by
  rcases hcheck : _check_rh_temp (some rh) (some t) with e | u
  · rcases hv with hs | hs <;>
      simp [measure_raw_signal, _send_command_and_read_answer, hs, hcheck,
        Except.map, Prod.ext_iff] at hok
  rcases htr : _get_raw_temp t with e | rawt
  · rcases hv with hs | hs <;>
      simp [measure_raw_signal, _send_command_and_read_answer, hs, hcheck,
        htr, Except.map, Prod.ext_iff] at hok
  rcases hrr : _get_raw_relhum rh with e | rawr
  · rcases hv with hs | hs <;>
      simp [measure_raw_signal, _send_command_and_read_answer, hs, hcheck,
        htr, hrr, Except.map, Prod.ext_iff] at hok
  rcases hv with hs | hs
  · -- variant 0: a 3-byte response, 2-field unpack, no NOx
    rw [hs] at hlen
    simp only [if_pos rfl] at hlen
    obtain ⟨b0, b1, b2, rfl⟩ := List.length_eq_three.mp hlen
    cases hcc : st.check_crc with
    | false =>
      simp [measure_raw_signal, _send_command_and_read_answer, _send_command,
        _read_answer, unpack, hs, hcc, hcheck, htr, hrr,
        _get_answer_params, _cmd_measure_raw_signal, _cmd_turn_heater_off,
        _cmd_execute_self_test, _cmd_execute_conditioning,
        _cmd_get_serial_number, except_bind_ok, except_bind_error, Except.map,
        pure, Except.pure, List.take, Prod.ext_iff] at hok
      obtain ⟨-, -, hmv⟩ := hok
      simp [← hmv, hs]
    | true =>
      rcases hca : _check_answer [b0, b1, b2] 3 with e | w
      · simp [measure_raw_signal, _send_command_and_read_answer, _send_command,
          _read_answer, hs, hcc, hcheck, htr, hrr, hca,
          _get_answer_params, _cmd_measure_raw_signal, _cmd_turn_heater_off,
          _cmd_execute_self_test, _cmd_execute_conditioning,
          _cmd_get_serial_number, except_bind_ok, except_bind_error,
          Functor.map, Except.map, pure, Except.pure, List.take,
          Prod.ext_iff] at hok
      · simp [measure_raw_signal, _send_command_and_read_answer, _send_command,
          _read_answer, unpack, hs, hcc, hcheck, htr, hrr, hca,
          _get_answer_params, _cmd_measure_raw_signal, _cmd_turn_heater_off,
          _cmd_execute_self_test, _cmd_execute_conditioning,
          _cmd_get_serial_number, except_bind_ok, except_bind_error,
          Functor.map, Except.map, pure, Except.pure, List.take,
          Prod.ext_iff] at hok
        obtain ⟨-, -, hmv⟩ := hok
        simp [← hmv, hs]
  · -- variant 1: a 6-byte response, 4-field unpack, NOx from bytes 3-4
    rw [hs] at hlen
    simp only [if_neg one_ne_zero] at hlen
    rcases response with _ | ⟨b0, _ | ⟨b1, _ | ⟨b2, _ | ⟨b3, _ | ⟨b4, _ |
      ⟨b5, rest⟩⟩⟩⟩⟩⟩ <;> simp at hlen
    subst hlen
    cases hcc : st.check_crc with
    | false =>
      simp [measure_raw_signal, _send_command_and_read_answer, _send_command,
        _read_answer, unpack, hs, hcc, hcheck, htr, hrr,
        _get_answer_params, _cmd_measure_raw_signal, _cmd_turn_heater_off,
        _cmd_execute_self_test, _cmd_execute_conditioning,
        _cmd_get_serial_number, except_bind_ok, except_bind_error, Except.map,
        pure, Except.pure, List.take, Prod.ext_iff] at hok
      obtain ⟨-, -, hmv⟩ := hok
      simp [← hmv, hs]
    | true =>
      rcases hca : _check_answer [b0, b1, b2, b3, b4, b5] 6 with e | w
      · simp [measure_raw_signal, _send_command_and_read_answer, _send_command,
          _read_answer, hs, hcc, hcheck, htr, hrr, hca,
          _get_answer_params, _cmd_measure_raw_signal, _cmd_turn_heater_off,
          _cmd_execute_self_test, _cmd_execute_conditioning,
          _cmd_get_serial_number, except_bind_ok, except_bind_error,
          Functor.map, Except.map, pure, Except.pure, List.take,
          Prod.ext_iff] at hok
      · simp [measure_raw_signal, _send_command_and_read_answer, _send_command,
          _read_answer, unpack, hs, hcc, hcheck, htr, hrr, hca,
          _get_answer_params, _cmd_measure_raw_signal, _cmd_turn_heater_off,
          _cmd_execute_self_test, _cmd_execute_conditioning,
          _cmd_get_serial_number, except_bind_ok, except_bind_error,
          Functor.map, Except.map, pure, Except.pure, List.take,
          Prod.ext_iff] at hok
        obtain ⟨-, -, hmv⟩ := hok
        simp [← hmv, hs]

/-- C7 witness: a concrete successful variant-0 run with the datasheet's
example word `0xBEEF` and its CRC `0x92`. -/
theorem measureRawSignal_c7_witness :
    (⟨48879, none⟩ : measured_values_sgp4x).VOC =
        256 * [0xBE, 0xEF, 0x92].getD 0 0 + [0xBE, 0xEF, 0x92].getD 1 0 ∧
    (⟨48879, none⟩ : measured_values_sgp4x).NOx =
      (if (⟨0, true, none⟩ : SGP4XState).sensor_id = 0 then none
        else some (256 * [0xBE, 0xEF, 0x92].getD 3 0 +
          [0xBE, 0xEF, 0x92].getD 4 0)) :=
  measureRawSignal_c7 ⟨0, true, none⟩ 50 25 [0xBE, 0xEF, 0x92] ⟨48879, none⟩
    [[0x26, 0x0F, 12, 195, 33, 102, 102, 147]] ⟨0, true, some 0x260F⟩
    (Or.inl rfl) (by decide) (by decide)

end SGP4X
